import Mathlib

/-!
Shallow embedding of the Coincheck `BrokerAdapterImpl` (src/Coincheck/BrokerAdapterImpl.ts)
and of the collaborator contracts it consumes, together with theorems settling the
specification's claims about `refresh`, `cancel`, the strategy dispatch and `mapToQuote`.

Monetary quantities are idealised as rationals.  Timestamps are integers
(milliseconds, matching the JS `Date` arithmetic of the source).  The trading mode
and broker tags are TS string enums, so their runtime values are plain strings.
-/

namespace R2

/-- Modelled from the spec: `OrderStatus` (from `types`, outside the given source) is the
closed enumeration Open (initial) → PartiallyFilled → Filled | Canceled (terminal). -/
inductive OrderStatus where
  | Open
  | PartiallyFilled
  | Filled
  | Canceled
deriving DecidableEq

/-- Modelled from the spec: an `Execution` record (class outside the given source)
carries an execution timestamp, a fill price and a fill size. -/
structure Execution where
  execTime : Int
  price : ℚ
  size : ℚ
deriving DecidableEq

/-- Modelled from the spec: the caller-owned `Order` object (class outside the given
source), mutated in place by the adapter.  `broker` and `cashMarginType` are TS
string-enum values, hence strings here. -/
structure Order where
  broker : String
  brokerOrderId : String
  cashMarginType : String
  size : ℚ
  creationTime : Int
  filledSize : ℚ
  executions : List Execution
  status : OrderStatus
  lastUpdated : Int
deriving DecidableEq

/-- An entry of the open-orders snapshot, per the collaborator contract
`getOpenOrders() → { orders: seq<{ id, pending_amount? }> }`. -/
structure BrokerOrder where
  id : String
  pending_amount : Option ℚ
deriving DecidableEq

/-- A historical transaction, per the collaborator contract
`getTransactionsSince(t) → seq<{ order_id, created_at, rate, funds: { btc } }>`. -/
structure Transaction where
  order_id : String
  created_at : Int
  rate : ℚ
  funds_btc : ℚ
deriving DecidableEq

/-- Modelled from the spec: the rounding utility `eRound` (from `util`, outside the
given source) rounds to the exchange's minimum unit; `unit` is that positive minimum
unit, carried as a parameter throughout. -/
def eRound (unit q : ℚ) : ℚ :=
  ((round (q / unit) : ℤ) : ℚ) * unit

/-- Modelled from the spec: `almostEqual` (from `util`, outside the given source)
tests approximate equality within `tol` units of the rounding precision. -/
def almostEqual (unit a b tol : ℚ) : Bool :=
  decide (|a - b| ≤ tol * unit)

/-- The error raised by `refresh` on a protocol-inconsistent open-orders entry. -/
inductive RefreshError where
  | UnexpectedReply
deriving DecidableEq

/-- One `Execution` built from a historical transaction (source lines 113-119):
timestamp from `created_at`, price from `rate`, size the absolute value of the
base-currency delta `funds.btc`. -/
def mkExecution (x : Transaction) : Execution :=
  { execTime := x.created_at, price := x.rate, size := |x.funds_btc| }

/-- Shallow embedding of `BrokerAdapterImpl.refresh` (source lines 92-123).
`now` is the clock value read by `new Date()`; `openOrders` is the `orders` field of
the `getOpenOrders` reply; `feed t` is the reply of `getTransactionsWithStartDate t`
(timestamps in milliseconds, so `addMinutes(order.creationTime, -1)` is
`order.creationTime - 60000`).  The result pairs the order state after the call with
the raised error, if any; the source throws before any field assignment, so on error
the order comes back unchanged. -/
def refresh (unit : ℚ) (now : Int) (openOrders : List BrokerOrder)
    (feed : Int → List Transaction) (order : Order) : Order × Option RefreshError :=
  match openOrders.find? (fun o => o.id == order.brokerOrderId) with
  | some brokerOrder =>
    match brokerOrder.pending_amount with
    | none => (order, some RefreshError.UnexpectedReply)
    | some pending =>
      if pending = 0 then (order, some RefreshError.UnexpectedReply)
      else
        let fs := eRound unit (order.size - pending)
        ({ order with
            filledSize := fs,
            status := if fs > 0 then OrderStatus.PartiallyFilled else order.status,
            lastUpdated := now }, none)
  | none =>
    let txs := (feed (order.creationTime - 60000)).filter
      (fun x => x.order_id == order.brokerOrderId)
    if txs.length = 0 then
      (order, none)
    else
      let execs := txs.map mkExecution
      let fs := eRound unit ((execs.map Execution.size).sum)
      ({ order with
          executions := execs,
          filledSize := fs,
          status := if almostEqual unit fs order.size 1 then OrderStatus.Filled
                    else OrderStatus.Canceled,
          lastUpdated := now }, none)

/-- The remote acknowledgement of `cancelOrder`, per the collaborator contract
`cancelOrder(id) → { success: bool }`. -/
structure CancelReply where
  success : Bool
deriving DecidableEq

/-- The error raised by `cancel` when the remote acknowledgement reports failure. -/
inductive CancelError where
  | CancelFailed (orderId : String)
deriving DecidableEq

/-- Shallow embedding of `BrokerAdapterImpl.cancel` (source lines 82-90): the source
throws before any field assignment, so on failure the order comes back unchanged. -/
def cancel (now : Int) (reply : CancelReply) (order : Order) : Order × Option CancelError :=
  if reply.success then
    ({ order with lastUpdated := now, status := OrderStatus.Canceled }, none)
  else
    (order, some (CancelError.CancelFailed order.brokerOrderId))

/-- Modelled from the spec: the three per-mode strategies are external collaborators;
only their identity matters to the dispatch logic verified here. -/
inductive StrategyKind where
  | cashStrategy
  | marginOpenStrategy
  | netOutStrategy
deriving DecidableEq

/-- The mode→strategy map built once in the constructor (source lines 33-37), as an
association list keyed by the string-enum mode values. -/
def strategyMap : List (String × StrategyKind) :=
  [("Cash", StrategyKind.cashStrategy),
   ("MarginOpen", StrategyKind.marginOpenStrategy),
   ("NetOut", StrategyKind.netOutStrategy)]

/-- Errors of the dispatching operations `getBtcPosition` and `send`. -/
inductive AdapterError where
  | StrategyNotFound (mode : String)
  | BrokerMismatch
deriving DecidableEq

/-- The adapter's broker identity (`Broker.Coincheck`, a TS string-enum value). -/
def coincheckBroker : String := "Coincheck"

/-- Strategy resolution of `getBtcPosition` (source lines 40-46): the adapter's
configured mode is looked up in `strategyMap`; the position number itself comes from
the resolved remote strategy, so the embedding returns which strategy is delegated to. -/
def getBtcPosition (configCashMarginType : String) : Except AdapterError StrategyKind :=
  match strategyMap.lookup configCashMarginType with
  | none => Except.error (AdapterError.StrategyNotFound configCashMarginType)
  | some s => Except.ok s

/-- Strategy resolution of `send` (source lines 71-80): guard on the order's broker
tag, then look up the order's own mode; placement is delegated to the resolved
strategy, so the embedding returns which strategy is delegated to. -/
def send (order : Order) : Except AdapterError StrategyKind :=
  if order.broker ≠ coincheckBroker then
    Except.error AdapterError.BrokerMismatch
  else
    match strategyMap.lookup order.cashMarginType with
    | none => Except.error (AdapterError.StrategyNotFound order.cashMarginType)
    | some s => Except.ok s

/-- Side tag of a quote. -/
inductive QuoteSide where
  | Ask
  | Bid
deriving DecidableEq

/-- Modelled from the spec: an immutable `Quote` value (class outside the given
source): broker tag, side, price, size. -/
structure Quote where
  broker : String
  side : QuoteSide
  price : ℚ
  volume : ℚ
deriving DecidableEq

/-- The raw order book, per the collaborator contract
`getOrderBooks() → { asks: seq<[price,size]>, bids: seq<[price,size]> }`. -/
structure OrderBooksResponse where
  asks : List (ℚ × ℚ)
  bids : List (ℚ × ℚ)

/-- Shallow embedding of `mapToQuote` (source lines 59-69). -/
def mapToQuote (resp : OrderBooksResponse) : List Quote :=
  ((resp.asks.take 100).map fun q =>
    { broker := coincheckBroker, side := QuoteSide.Ask, price := q.1, volume := q.2 }) ++
  ((resp.bids.take 100).map fun q =>
    { broker := coincheckBroker, side := QuoteSide.Bid, price := q.1, volume := q.2 })

/-! ### Branch lemmas for `refresh`

One lemma per control-flow path of the source function; the claim theorems below are
proved from these. -/

/-- Open-orders entry found but its `pending_amount` is absent: the call raises
`UnexpectedReply` and the order is unchanged. -/
theorem refreshFound_err_none (unit : ℚ) (now : Int) (openOrders : List BrokerOrder)
    (feed : Int → List Transaction) (order : Order) (bo : BrokerOrder)
    (hfound : openOrders.find? (fun o => o.id == order.brokerOrderId) = some bo)
    (hpa : bo.pending_amount = none) :
    refresh unit now openOrders feed order = (order, some RefreshError.UnexpectedReply) := by
  unfold refresh
  rw [hfound]
  simp [hpa]

/-- Open-orders entry found but its `pending_amount` is exactly zero: the call raises
`UnexpectedReply` and the order is unchanged. -/
theorem refreshFound_err_zero (unit : ℚ) (now : Int) (openOrders : List BrokerOrder)
    (feed : Int → List Transaction) (order : Order) (bo : BrokerOrder)
    (hfound : openOrders.find? (fun o => o.id == order.brokerOrderId) = some bo)
    (hpa : bo.pending_amount = some 0) :
    refresh unit now openOrders feed order = (order, some RefreshError.UnexpectedReply) := by
  unfold refresh
  rw [hfound]
  simp [hpa]

/-- Open-orders entry found with a nonzero pending amount: filled size becomes the
rounded difference, the status becomes PartiallyFilled exactly when that difference is
positive, the timestamp is stamped, and nothing else changes. -/
theorem refreshFound_update (unit : ℚ) (now : Int) (openOrders : List BrokerOrder)
    (feed : Int → List Transaction) (order : Order) (bo : BrokerOrder) (pending : ℚ)
    (hfound : openOrders.find? (fun o => o.id == order.brokerOrderId) = some bo)
    (hpa : bo.pending_amount = some pending) (hnz : pending ≠ 0) :
    refresh unit now openOrders feed order =
      ({ order with
          filledSize := eRound unit (order.size - pending),
          status := if eRound unit (order.size - pending) > 0 then OrderStatus.PartiallyFilled
                    else order.status,
          lastUpdated := now }, none) := by
  unfold refresh
  rw [hfound]
  simp [hpa, hnz]

/-- Order absent from the snapshot and no matching historical transaction: no-op. -/
theorem refreshAbsent_noop (unit : ℚ) (now : Int) (openOrders : List BrokerOrder)
    (feed : Int → List Transaction) (order : Order)
    (habsent : openOrders.find? (fun o => o.id == order.brokerOrderId) = none)
    (hempty : (feed (order.creationTime - 60000)).filter
        (fun x => x.order_id == order.brokerOrderId) = []) :
    refresh unit now openOrders feed order = (order, none) := by
  unfold refresh
  rw [habsent]
  simp [hempty]

/-- Order absent from the snapshot with matching historical transactions `txs ≠ []`:
executions are rebuilt from `txs`, the filled size is the rounded sum of their sizes,
and the status is Filled or Canceled by approximate equality with the requested size. -/
theorem refreshAbsent_update (unit : ℚ) (now : Int) (openOrders : List BrokerOrder)
    (feed : Int → List Transaction) (order : Order) (txs : List Transaction)
    (habsent : openOrders.find? (fun o => o.id == order.brokerOrderId) = none)
    (htxs : (feed (order.creationTime - 60000)).filter
        (fun x => x.order_id == order.brokerOrderId) = txs)
    (hne : txs ≠ []) :
    refresh unit now openOrders feed order =
      ({ order with
          executions := txs.map mkExecution,
          filledSize := eRound unit (((txs.map mkExecution).map Execution.size).sum),
          status := if almostEqual unit
                (eRound unit (((txs.map mkExecution).map Execution.size).sum)) order.size 1
              then OrderStatus.Filled else OrderStatus.Canceled,
          lastUpdated := now }, none) := by
  have hlen : txs.length ≠ 0 := by simpa [List.length_eq_zero] using hne
  unfold refresh
  rw [habsent]
  simp [htxs, hlen]

/-! ### Claim theorems -/

/-- C1: for every order absent from the open-orders snapshot whose historical feed has
at least one transaction matching its broker order id, `refresh` succeeds and builds
exactly one execution per matching transaction (timestamp = the transaction's
`created_at`, price = its `rate`, size = the absolute value of its base-currency delta
`funds_btc`), sets the filled size to the rounded sum of those execution sizes, stamps
the last-updated time, and sets the status to Filled exactly when the filled size is
approximately equal to the requested size within tolerance 1 of the rounding
precision, and to Canceled otherwise. -/
theorem refresh_historical_fill_spec (unit : ℚ) (now : Int)
    (openOrders : List BrokerOrder) (feed : Int → List Transaction) (order : Order)
    (habsent : openOrders.find? (fun o => o.id == order.brokerOrderId) = none)
    (hmatch : (feed (order.creationTime - 60000)).filter
        (fun x => x.order_id == order.brokerOrderId) ≠ []) :
    ∃ r : Order,
      refresh unit now openOrders feed order = (r, none) ∧
      r.executions = ((feed (order.creationTime - 60000)).filter
          (fun x => x.order_id == order.brokerOrderId)).map
        (fun x => { execTime := x.created_at, price := x.rate, size := |x.funds_btc| }) ∧
      r.filledSize = eRound unit ((r.executions.map Execution.size).sum) ∧
      r.status = (if almostEqual unit r.filledSize order.size 1 then OrderStatus.Filled
                  else OrderStatus.Canceled) ∧
      r.lastUpdated = now :=
  ⟨_, refreshAbsent_update unit now openOrders feed order _ habsent rfl hmatch,
    rfl, rfl, rfl, rfl⟩

/-- Witness for C1: one matching and one non-matching historical transaction. -/
theorem refresh_historical_fill_spec_witness :
    ∃ r : Order,
      refresh 1 9 []
        (fun _ => [{ order_id := "o1", created_at := 4, rate := 500, funds_btc := -2 },
                   { order_id := "zz", created_at := 5, rate := 501, funds_btc := 7 }])
        { broker := "Coincheck", brokerOrderId := "o1", cashMarginType := "Cash",
          size := 2, creationTime := 0, filledSize := 0, executions := [],
          status := OrderStatus.Open, lastUpdated := 0 } = (r, none) ∧
      r.executions = [{ execTime := 4, price := 500, size := |(-2 : ℚ)| }] ∧
      r.filledSize = eRound 1 ((r.executions.map Execution.size).sum) ∧
      r.status = (if almostEqual 1 r.filledSize 2 1 then OrderStatus.Filled
                  else OrderStatus.Canceled) ∧
      r.lastUpdated = 9 :=
  refresh_historical_fill_spec 1 9 []
    (fun _ => [{ order_id := "o1", created_at := 4, rate := 500, funds_btc := -2 },
               { order_id := "zz", created_at := 5, rate := 501, funds_btc := 7 }])
    { broker := "Coincheck", brokerOrderId := "o1", cashMarginType := "Cash",
      size := 2, creationTime := 0, filledSize := 0, executions := [],
      status := OrderStatus.Open, lastUpdated := 0 }
    rfl (by simp)

/-- C2: for every order found in the open-orders snapshot whose entry has an absent or
exactly-zero pending amount, `refresh` fails with `UnexpectedReply`, the order comes
back with every field unchanged, and the result is the same for every historical feed
(the feed is not consulted). -/
theorem refresh_inconsistent_pending_spec (unit : ℚ) (now : Int)
    (openOrders : List BrokerOrder) (order : Order) (bo : BrokerOrder)
    (hfound : openOrders.find? (fun o => o.id == order.brokerOrderId) = some bo)
    (hz : bo.pending_amount = none ∨ bo.pending_amount = some 0) :
    ∀ feed : Int → List Transaction,
      refresh unit now openOrders feed order = (order, some RefreshError.UnexpectedReply) := by
  intro feed
  rcases hz with h | h
  · exact refreshFound_err_none unit now openOrders feed order bo hfound h
  · exact refreshFound_err_zero unit now openOrders feed order bo hfound h

/-- Witness for C2 at a concrete snapshot entry whose pending amount is zero. -/
theorem refresh_inconsistent_pending_spec_witness :
    refresh 1 5 [{ id := "a", pending_amount := some 0 }] (fun _ => [])
        { broker := "Coincheck", brokerOrderId := "a", cashMarginType := "Cash",
          size := 1, creationTime := 0, filledSize := 0, executions := [],
          status := OrderStatus.Open, lastUpdated := 0 } =
      ({ broker := "Coincheck", brokerOrderId := "a", cashMarginType := "Cash",
          size := 1, creationTime := 0, filledSize := 0, executions := [],
          status := OrderStatus.Open, lastUpdated := 0 }, some RefreshError.UnexpectedReply) :=
  refresh_inconsistent_pending_spec 1 5 [{ id := "a", pending_amount := some 0 }]
    { broker := "Coincheck", brokerOrderId := "a", cashMarginType := "Cash",
      size := 1, creationTime := 0, filledSize := 0, executions := [],
      status := OrderStatus.Open, lastUpdated := 0 }
    { id := "a", pending_amount := some 0 } rfl (Or.inr rfl) (fun _ => [])

/-- C3: for every order found in the open-orders snapshot with a defined nonzero
pending amount, `refresh` succeeds, sets the filled size to the rounded difference
(requested size − pending amount), sets the status to PartiallyFilled exactly when
that filled size is positive (leaving it unchanged otherwise), stamps the last-updated
time, leaves the executions (and every other field) unchanged, and returns the same
result for every historical feed (the feed is not consulted). -/
theorem refresh_open_pending_spec (unit : ℚ) (now : Int) (openOrders : List BrokerOrder)
    (order : Order) (bo : BrokerOrder) (pending : ℚ)
    (hfound : openOrders.find? (fun o => o.id == order.brokerOrderId) = some bo)
    (hpa : bo.pending_amount = some pending) (hnz : pending ≠ 0) :
    ∀ feed : Int → List Transaction,
      refresh unit now openOrders feed order =
        ({ order with
            filledSize := eRound unit (order.size - pending),
            status := if eRound unit (order.size - pending) > 0 then OrderStatus.PartiallyFilled
                      else order.status,
            lastUpdated := now }, none) :=
  fun feed => refreshFound_update unit now openOrders feed order bo pending hfound hpa hnz

/-- Witness for C3 at a concrete snapshot entry with pending amount 2. -/
theorem refresh_open_pending_spec_witness :
    refresh 1 5 [{ id := "a", pending_amount := some 2 }] (fun _ => [])
        { broker := "Coincheck", brokerOrderId := "a", cashMarginType := "Cash",
          size := 5, creationTime := 0, filledSize := 0, executions := [],
          status := OrderStatus.Open, lastUpdated := 0 } =
      ({ broker := "Coincheck", brokerOrderId := "a", cashMarginType := "Cash",
          size := 5, creationTime := 0, filledSize := eRound 1 ((5 : ℚ) - 2),
          executions := [],
          status := if eRound 1 ((5 : ℚ) - 2) > 0 then OrderStatus.PartiallyFilled
                    else OrderStatus.Open,
          lastUpdated := 5 }, none) :=
  refresh_open_pending_spec 1 5 [{ id := "a", pending_amount := some 2 }]
    { broker := "Coincheck", brokerOrderId := "a", cashMarginType := "Cash",
      size := 5, creationTime := 0, filledSize := 0, executions := [],
      status := OrderStatus.Open, lastUpdated := 0 }
    { id := "a", pending_amount := some 2 } 2 rfl rfl (by decide) (fun _ => [])

/-- C4: for every order absent from the open-orders snapshot with no matching
historical transaction, `refresh` is a no-op: it succeeds and returns the order with
every field unchanged. -/
theorem refresh_indeterminate_noop_spec (unit : ℚ) (now : Int)
    (openOrders : List BrokerOrder) (feed : Int → List Transaction) (order : Order)
    (habsent : openOrders.find? (fun o => o.id == order.brokerOrderId) = none)
    (hempty : (feed (order.creationTime - 60000)).filter
        (fun x => x.order_id == order.brokerOrderId) = []) :
    refresh unit now openOrders feed order = (order, none) :=
  refreshAbsent_noop unit now openOrders feed order habsent hempty

/-- Witness for C4: the feed only holds a transaction for a different order. -/
theorem refresh_indeterminate_noop_spec_witness :
    refresh 1 5 []
        (fun _ => [{ order_id := "zz", created_at := 4, rate := 500, funds_btc := 1 }])
        { broker := "Coincheck", brokerOrderId := "a", cashMarginType := "Cash",
          size := 1, creationTime := 0, filledSize := 0, executions := [],
          status := OrderStatus.Open, lastUpdated := 0 } =
      ({ broker := "Coincheck", brokerOrderId := "a", cashMarginType := "Cash",
          size := 1, creationTime := 0, filledSize := 0, executions := [],
          status := OrderStatus.Open, lastUpdated := 0 }, none) :=
  refresh_indeterminate_noop_spec 1 5 []
    (fun _ => [{ order_id := "zz", created_at := 4, rate := 500, funds_btc := 1 }])
    { broker := "Coincheck", brokerOrderId := "a", cashMarginType := "Cash",
      size := 1, creationTime := 0, filledSize := 0, executions := [],
      status := OrderStatus.Open, lastUpdated := 0 }
    rfl rfl

/-- C5 counterexample: a Filled order that the snapshot still lists as open with a
nonzero pending amount is moved back to the non-terminal status PartiallyFilled by
`refresh`, so the claim fails as stated for this snapshot. -/
theorem refresh_terminal_regress_cex :
    ∃ r : Order,
      refresh (1/100000000) 7 [{ id := "o1", pending_amount := some 1 }] (fun _ => [])
        { broker := "Coincheck", brokerOrderId := "o1", cashMarginType := "Cash",
          size := 3, creationTime := 0, filledSize := 3, executions := [],
          status := OrderStatus.Filled, lastUpdated := 0 } = (r, none) ∧
      r.status = OrderStatus.PartiallyFilled := by
  refine ⟨_, refreshFound_update (1/100000000) 7 [{ id := "o1", pending_amount := some 1 }]
    (fun _ => [])
    { broker := "Coincheck", brokerOrderId := "o1", cashMarginType := "Cash",
      size := 3, creationTime := 0, filledSize := 3, executions := [],
      status := OrderStatus.Filled, lastUpdated := 0 }
    { id := "o1", pending_amount := some 1 } 1 rfl rfl (by norm_num), ?_⟩
  have hpos : eRound (1/100000000) ((3 : ℚ) - 1) > 0 := by norm_num [eRound, round_eq]
  simp only [Order.status]
  rw [if_pos hpos]

/-- C5 amended: `refresh` never sets the status of a Filled or Canceled order to Open,
and when such an order is absent from the open-orders snapshot its status stays
terminal (Filled or Canceled) for every historical feed; however, when a terminal
order is still listed in the snapshot with a nonzero pending amount and a positive
rounded filled size, `refresh` does set it back to PartiallyFilled. -/
theorem refresh_terminal_no_reopen_spec (unit : ℚ) (now : Int)
    (openOrders : List BrokerOrder) (feed : Int → List Transaction) (order : Order)
    (hterm : order.status = OrderStatus.Filled ∨ order.status = OrderStatus.Canceled) :
    (refresh unit now openOrders feed order).1.status ≠ OrderStatus.Open ∧
    (openOrders.find? (fun o => o.id == order.brokerOrderId) = none →
      (refresh unit now openOrders feed order).1.status = OrderStatus.Filled ∨
      (refresh unit now openOrders feed order).1.status = OrderStatus.Canceled) := by
  have hno : order.status ≠ OrderStatus.Open := by
    rcases hterm with h | h <;> simp [h]
  constructor
  · rcases hf : openOrders.find? (fun o => o.id == order.brokerOrderId) with _ | bo
    · rcases he : (feed (order.creationTime - 60000)).filter
          (fun x => x.order_id == order.brokerOrderId) with _ | ⟨t, ts⟩
      · rw [refreshAbsent_noop unit now openOrders feed order hf he]
        exact hno
      · rw [refreshAbsent_update unit now openOrders feed order (t :: ts) hf he
          (by simp)]
        dsimp only
        split <;> simp
    · rcases hpa : bo.pending_amount with _ | pa
      · rw [refreshFound_err_none unit now openOrders feed order bo hf hpa]
        exact hno
      · by_cases hz : pa = 0
        · subst hz
          rw [refreshFound_err_zero unit now openOrders feed order bo hf hpa]
          exact hno
        · rw [refreshFound_update unit now openOrders feed order bo pa hf hpa hz]
          dsimp only
          split
          · simp
          · exact hno
  · intro hf
    rcases he : (feed (order.creationTime - 60000)).filter
        (fun x => x.order_id == order.brokerOrderId) with _ | ⟨t, ts⟩
    · rw [refreshAbsent_noop unit now openOrders feed order hf he]
      exact hterm
    · rw [refreshAbsent_update unit now openOrders feed order (t :: ts) hf he (by simp)]
      dsimp only
      split
      · exact Or.inl rfl
      · exact Or.inr rfl

/-- Witness for the amended C5 at a concrete Canceled order absent from the snapshot. -/
theorem refresh_terminal_no_reopen_spec_witness :
    (refresh 1 5 []
        (fun _ => [{ order_id := "a", created_at := 4, rate := 500, funds_btc := 1 }])
        { broker := "Coincheck", brokerOrderId := "a", cashMarginType := "Cash",
          size := 1, creationTime := 0, filledSize := 0, executions := [],
          status := OrderStatus.Canceled, lastUpdated := 0 }).1.status ≠ OrderStatus.Open ∧
    (([] : List BrokerOrder).find? (fun o => o.id == "a") = none →
      (refresh 1 5 []
          (fun _ => [{ order_id := "a", created_at := 4, rate := 500, funds_btc := 1 }])
          { broker := "Coincheck", brokerOrderId := "a", cashMarginType := "Cash",
            size := 1, creationTime := 0, filledSize := 0, executions := [],
            status := OrderStatus.Canceled, lastUpdated := 0 }).1.status = OrderStatus.Filled ∨
      (refresh 1 5 []
          (fun _ => [{ order_id := "a", created_at := 4, rate := 500, funds_btc := 1 }])
          { broker := "Coincheck", brokerOrderId := "a", cashMarginType := "Cash",
            size := 1, creationTime := 0, filledSize := 0, executions := [],
            status := OrderStatus.Canceled, lastUpdated := 0 }).1.status = OrderStatus.Canceled) :=
  refresh_terminal_no_reopen_spec 1 5 []
    (fun _ => [{ order_id := "a", created_at := 4, rate := 500, funds_btc := 1 }])
    { broker := "Coincheck", brokerOrderId := "a", cashMarginType := "Cash",
      size := 1, creationTime := 0, filledSize := 0, executions := [],
      status := OrderStatus.Canceled, lastUpdated := 0 }
    (Or.inr rfl)

/-- C6: refreshing a terminal (Filled or Canceled) order twice against the same
open-orders snapshot and the same historical feed, via the historical path (absent
from the snapshot, with matching transactions), succeeds both times and yields the
same status and the same execution list both times. -/
theorem refresh_idempotent_terminal_spec (unit : ℚ) (now now2 : Int)
    (openOrders : List BrokerOrder) (feed : Int → List Transaction) (order : Order)
    (_hterm : order.status = OrderStatus.Filled ∨ order.status = OrderStatus.Canceled)
    (habsent : openOrders.find? (fun o => o.id == order.brokerOrderId) = none)
    (hmatch : (feed (order.creationTime - 60000)).filter
        (fun x => x.order_id == order.brokerOrderId) ≠ []) :
    ∃ r1 r2 : Order,
      refresh unit now openOrders feed order = (r1, none) ∧
      refresh unit now2 openOrders feed r1 = (r2, none) ∧
      r2.status = r1.status ∧ r2.executions = r1.executions :=
  ⟨_, _,
    refreshAbsent_update unit now openOrders feed order
      ((feed (order.creationTime - 60000)).filter (fun x => x.order_id == order.brokerOrderId))
      habsent rfl hmatch,
    refreshAbsent_update unit now2 openOrders feed _
      ((feed (order.creationTime - 60000)).filter (fun x => x.order_id == order.brokerOrderId))
      habsent rfl hmatch,
    rfl, rfl⟩

/-- Witness for C6 at a concrete Filled order and a single matching transaction. -/
theorem refresh_idempotent_terminal_spec_witness :
    ∃ r1 r2 : Order,
      refresh 1 8 []
        (fun _ => [{ order_id := "a", created_at := 4, rate := 500, funds_btc := 1 }])
        { broker := "Coincheck", brokerOrderId := "a", cashMarginType := "Cash",
          size := 1, creationTime := 0, filledSize := 1, executions := [],
          status := OrderStatus.Filled, lastUpdated := 0 } = (r1, none) ∧
      refresh 1 9 []
        (fun _ => [{ order_id := "a", created_at := 4, rate := 500, funds_btc := 1 }])
        r1 = (r2, none) ∧
      r2.status = r1.status ∧ r2.executions = r1.executions :=
  refresh_idempotent_terminal_spec 1 8 9 []
    (fun _ => [{ order_id := "a", created_at := 4, rate := 500, funds_btc := 1 }])
    { broker := "Coincheck", brokerOrderId := "a", cashMarginType := "Cash",
      size := 1, creationTime := 0, filledSize := 1, executions := [],
      status := OrderStatus.Filled, lastUpdated := 0 }
    (Or.inl rfl) rfl (by simp)

/-- C7: `cancel` fails with `CancelFailed` and leaves every order field (in particular
status and last-updated time) unchanged when the remote acknowledgement reports
failure; when it reports success, `cancel` sets the status to Canceled and stamps the
last-updated time. -/
theorem cancel_ack_spec (now : Int) (reply : CancelReply) (order : Order) :
    (reply.success = false →
      cancel now reply order = (order, some (CancelError.CancelFailed order.brokerOrderId))) ∧
    (reply.success = true →
      cancel now reply order =
        ({ order with status := OrderStatus.Canceled, lastUpdated := now }, none)) := by
  constructor <;> intro h <;> simp [cancel, h]

/-- Witness for C7 at both acknowledgement outcomes on a concrete order. -/
theorem cancel_ack_spec_witness :
    cancel 9 { success := false }
        { broker := "Coincheck", brokerOrderId := "b", cashMarginType := "Cash",
          size := 1, creationTime := 0, filledSize := 0, executions := [],
          status := OrderStatus.Open, lastUpdated := 0 } =
      ({ broker := "Coincheck", brokerOrderId := "b", cashMarginType := "Cash",
          size := 1, creationTime := 0, filledSize := 0, executions := [],
          status := OrderStatus.Open, lastUpdated := 0 },
        some (CancelError.CancelFailed "b")) ∧
    cancel 9 { success := true }
        { broker := "Coincheck", brokerOrderId := "b", cashMarginType := "Cash",
          size := 1, creationTime := 0, filledSize := 0, executions := [],
          status := OrderStatus.Open, lastUpdated := 0 } =
      ({ broker := "Coincheck", brokerOrderId := "b", cashMarginType := "Cash",
          size := 1, creationTime := 0, filledSize := 0, executions := [],
          status := OrderStatus.Canceled, lastUpdated := 9 }, none) :=
  ⟨(cancel_ack_spec 9 { success := false }
      { broker := "Coincheck", brokerOrderId := "b", cashMarginType := "Cash",
        size := 1, creationTime := 0, filledSize := 0, executions := [],
        status := OrderStatus.Open, lastUpdated := 0 }).1 rfl,
   (cancel_ack_spec 9 { success := true }
      { broker := "Coincheck", brokerOrderId := "b", cashMarginType := "Cash",
        size := 1, creationTime := 0, filledSize := 0, executions := [],
        status := OrderStatus.Open, lastUpdated := 0 }).2 rfl⟩

/-- C8: the mode-to-strategy map is built from exactly the three modes Cash,
MarginOpen and NetOut, and both `getBtcPosition` (on the adapter's configured mode)
and `send` (on the order's own mode, once the broker guard passes) fail with
`StrategyNotFound` whenever the mode they resolve has no entry in the map. -/
theorem strategy_dispatch_spec :
    strategyMap.map Prod.fst = ["Cash", "MarginOpen", "NetOut"] ∧
    (∀ mode : String, strategyMap.lookup mode = none →
      getBtcPosition mode = Except.error (AdapterError.StrategyNotFound mode)) ∧
    (∀ order : Order, order.broker = coincheckBroker →
      strategyMap.lookup order.cashMarginType = none →
      send order = Except.error (AdapterError.StrategyNotFound order.cashMarginType)) := by
  refine ⟨rfl, ?_, ?_⟩
  · intro mode h
    unfold getBtcPosition
    rw [h]
  · intro order hb h
    unfold send
    rw [if_neg (by simp [hb]), h]

/-- Witness for C8 at the unmapped mode string "Margin". -/
theorem strategy_dispatch_spec_witness :
    getBtcPosition "Margin" = Except.error (AdapterError.StrategyNotFound "Margin") ∧
    send { broker := "Coincheck", brokerOrderId := "c", cashMarginType := "Margin",
           size := 1, creationTime := 0, filledSize := 0, executions := [],
           status := OrderStatus.Open, lastUpdated := 0 } =
      Except.error (AdapterError.StrategyNotFound "Margin") :=
  ⟨strategy_dispatch_spec.2.1 "Margin" rfl,
   strategy_dispatch_spec.2.2
     { broker := "Coincheck", brokerOrderId := "c", cashMarginType := "Margin",
       size := 1, creationTime := 0, filledSize := 0, executions := [],
       status := OrderStatus.Open, lastUpdated := 0 } rfl rfl⟩

/-- C9: the quote builder takes at most the first 100 entries of each side in their
input order, tags each with its side (Ask for asks, Bid for bids) and the broker
identity, and returns the asks before the bids; with at least 100 entries per side it
returns exactly 100+100 quotes, empty inputs yield an empty result, and the function
is total, so no input produces an error. -/
theorem mapToQuote_spec (resp : OrderBooksResponse) :
    (mapToQuote resp).length = min resp.asks.length 100 + min resp.bids.length 100 ∧
    (100 ≤ resp.asks.length → 100 ≤ resp.bids.length → (mapToQuote resp).length = 200) ∧
    (resp.asks = [] → resp.bids = [] → mapToQuote resp = []) ∧
    (∀ i : ℕ, i < min resp.asks.length 100 →
      (mapToQuote resp)[i]? = resp.asks[i]?.map
        (fun q => { broker := coincheckBroker, side := QuoteSide.Ask,
                    price := q.1, volume := q.2 })) ∧
    (∀ j : ℕ, j < min resp.bids.length 100 →
      (mapToQuote resp)[min resp.asks.length 100 + j]? = resp.bids[j]?.map
        (fun q => { broker := coincheckBroker, side := QuoteSide.Bid,
                    price := q.1, volume := q.2 })) := by
  refine ⟨?_, ?_, ?_, ?_, ?_⟩
  · simp only [mapToQuote, List.length_append, List.length_map, List.length_take]
    omega
  · intro ha hb
    simp only [mapToQuote, List.length_append, List.length_map, List.length_take]
    omega
  · intro ha hb
    simp [mapToQuote, ha, hb]
  · intro i hi
    rw [mapToQuote, List.getElem?_append,
      if_pos (by simp only [List.length_map, List.length_take]; omega),
      List.getElem?_map, List.getElem?_take, if_pos (by omega)]
  · intro j hj
    rw [mapToQuote, List.getElem?_append,
      if_neg (by simp only [List.length_map, List.length_take]; omega)]
    simp only [List.length_map, List.length_take]
    have hj2 : min resp.asks.length 100 + j - min 100 resp.asks.length = j := by omega
    rw [hj2, List.getElem?_map, List.getElem?_take, if_pos (by omega)]

/-- Witness for C9 on a book with 100 asks and 150 bids, checked at the ends of the
ask range and the start of the bid range. -/
theorem mapToQuote_spec_witness :
    (mapToQuote { asks := List.replicate 100 ((1 : ℚ), (2 : ℚ)),
                  bids := List.replicate 150 ((3 : ℚ), (4 : ℚ)) }).length = 200 ∧
    (mapToQuote { asks := List.replicate 100 ((1 : ℚ), (2 : ℚ)),
                  bids := List.replicate 150 ((3 : ℚ), (4 : ℚ)) })[0]? =
      (List.replicate 100 ((1 : ℚ), (2 : ℚ)))[0]?.map
        (fun q => { broker := coincheckBroker, side := QuoteSide.Ask,
                    price := q.1, volume := q.2 }) ∧
    (mapToQuote { asks := List.replicate 100 ((1 : ℚ), (2 : ℚ)),
                  bids := List.replicate 150 ((3 : ℚ), (4 : ℚ)) })[min
        (List.replicate 100 ((1 : ℚ), (2 : ℚ))).length 100 + 0]? =
      (List.replicate 150 ((3 : ℚ), (4 : ℚ)))[0]?.map
        (fun q => { broker := coincheckBroker, side := QuoteSide.Bid,
                    price := q.1, volume := q.2 }) := by
  obtain ⟨-, h2, -, h4, h5⟩ := mapToQuote_spec
    { asks := List.replicate 100 ((1 : ℚ), (2 : ℚ)),
      bids := List.replicate 150 ((3 : ℚ), (4 : ℚ)) }
  exact ⟨h2 (by simp) (by simp), h4 0 (by simp), h5 0 (by simp)⟩

/-- C10: on an order found in the open-orders snapshot whose pending amount (here 2)
exceeds the requested size (here 1), `refresh` succeeds without error, sets the filled
size to the rounded difference requested − pending, which is negative, and leaves the
status unchanged: non-negativity of the filled size is not guaranteed at the public
interface. -/
theorem refresh_negative_fill_spec :
    ∃ r : Order,
      refresh (1/100000000) 3 [{ id := "o1", pending_amount := some 2 }] (fun _ => [])
        { broker := "Coincheck", brokerOrderId := "o1", cashMarginType := "Cash",
          size := 1, creationTime := 0, filledSize := 0, executions := [],
          status := OrderStatus.Open, lastUpdated := 0 } = (r, none) ∧
      r.filledSize = eRound (1/100000000) ((1 : ℚ) - 2) ∧
      r.filledSize < 0 ∧
      r.status = OrderStatus.Open := by
  refine ⟨_, refreshFound_update (1/100000000) 3 [{ id := "o1", pending_amount := some 2 }]
    (fun _ => [])
    { broker := "Coincheck", brokerOrderId := "o1", cashMarginType := "Cash",
      size := 1, creationTime := 0, filledSize := 0, executions := [],
      status := OrderStatus.Open, lastUpdated := 0 }
    { id := "o1", pending_amount := some 2 } 2 rfl rfl (by norm_num), rfl, ?_, ?_⟩
  · show eRound (1/100000000) ((1 : ℚ) - 2) < 0
    norm_num [eRound, round_eq]
  · have hneg : ¬ eRound (1/100000000) ((1 : ℚ) - 2) > 0 := by
      norm_num [eRound, round_eq]
    show (if eRound (1/100000000) ((1 : ℚ) - 2) > 0 then OrderStatus.PartiallyFilled
          else OrderStatus.Open) = OrderStatus.Open
    rw [if_neg hneg]

end R2
